import Mathlib

/-!
Verification of the Airwise Express backend (src/server.js) reading pipeline:
validation, reliability counters, conflict reconciliation, persistence shape,
retrieval gating and series interpolation.

JavaScript numbers in the sensor-quantity positions are modelled as exact
rationals extended with the distinguished values `null`, `undefined` and `NaN`
(floating-point rounding plays no role in any claim, all inputs are exact).
-/

namespace Airwise

/-- A JavaScript value as it occurs in a sensor-quantity position: the JSON
payload and the database deliver a number, `null`, or nothing (property access
then yields `undefined`); `NaN` can arise from arithmetic on `undefined`. -/
inductive QVal where
  | null
  | undef
  | nan
  | num (q : ℚ)
  deriving DecidableEq, Repr

/-- JavaScript `ToNumber` on the values above, as applied by the arithmetic
operators: `null` coerces to `0`, `undefined` to `NaN` (`none`). -/
def toNumber : QVal → Option ℚ
  | .null => some 0
  | .undef => none
  | .nan => none
  | .num q => some q

/-- The test `val === null || val === undefined` from server.js. -/
def isNullish : QVal → Bool
  | .null => true
  | .undef => true
  | _ => false

/-- JavaScript truthiness of a quantity value (`!pm2_5` in server.js line 129):
`null`, `undefined`, `NaN` and `0` are falsy. -/
def truthyQ : QVal → Bool
  | .null => false
  | .undef => false
  | .nan => false
  | .num q => q != 0

/-- JavaScript `(a + b) / 2` on two quantity values: `+` coerces `null` to `0`
and propagates `NaN` (from `undefined` or `NaN` operands). -/
def halfSum (a b : QVal) : QVal :=
  match toNumber a, toNumber b with
  | some x, some y => .num ((x + y) / 2)
  | _, _ => .nan

/-- The six optional physical-quantity fields of a reading (the value set of
a submission, of a stored `SensorReading` row, and of a merge result). -/
structure SensorData where
  temperature : QVal
  humidity : QVal
  pm25 : QVal
  pm10 : QVal
  co2 : QVal
  tvoc : QVal
  deriving DecidableEq, Repr

instance : Inhabited SensorData := ⟨⟨.null, .null, .null, .null, .null, .null⟩⟩

/-- server.js line 39: `value === null || value === undefined ||
(value >= min && value <= max)`; a JavaScript comparison with `NaN` is false. -/
def isValid (v : QVal) (lo hi : ℚ) : Bool :=
  match v with
  | .null => true
  | .undef => true
  | .nan => false
  | .num q => decide (lo ≤ q) && decide (q ≤ hi)

/-- server.js lines 37-49: conjunction of the six per-field range checks. -/
def validateSensorData (d : SensorData) : Bool :=
  isValid d.temperature (-50) 50 &&
  isValid d.humidity 0 100 &&
  isValid d.pm25 0 500 &&
  isValid d.pm10 0 500 &&
  isValid d.co2 0 5000 &&
  isValid d.tvoc 0 1000

/-- server.js lines 53-57 (`resolveValue` inside `resolveConflicts`, a helper
that is defined but never called by any route): pass-through when exactly one
side is present, else the plain average. -/
def resolveValue (existing incoming : QVal) : QVal :=
  if isNullish existing then incoming
  else if isNullish incoming then existing
  else halfSum existing incoming

/-- server.js lines 52-67: field-wise conflict resolution (dead code — no call
site exists in the file). -/
def resolveConflicts (existingReading newReading : SensorData) : SensorData :=
  { temperature := resolveValue existingReading.temperature newReading.temperature
    humidity := resolveValue existingReading.humidity newReading.humidity
    pm25 := resolveValue existingReading.pm25 newReading.pm25
    pm10 := resolveValue existingReading.pm10 newReading.pm10
    co2 := resolveValue existingReading.co2 newReading.co2
    tvoc := resolveValue existingReading.tvoc newReading.tvoc }

/-- The G-counter map `clientReadingsCounter` (server.js line 70): value `0`
stands for an absent key — JavaScript reads of an absent key give `undefined`,
and every read site guards with `|| 1` or initialises to `0`, so `0` and
absent are observationally identical. -/
def GCounter := String → ℕ

/-- The PN-counter map `deviceReadingsCounter` (server.js line 73): `none` is
an absent key, `some (p, n)` the record `{ p, n }`. -/
def PNMap := String → Option (ℕ × ℕ)

/-- The empty `clientReadingsCounter` at process start. -/
def gZero : GCounter := fun _ => 0

/-- The empty `deviceReadingsCounter` at process start. -/
def pnZero : PNMap := fun _ => none

/-- server.js lines 76-81: initialise the client's counter to `0` when absent,
then increment it. -/
def updateGCounter (g : GCounter) (clientId : String) : GCounter :=
  fun c => if c = clientId then g clientId + 1 else g c

/-- server.js lines 84-93: initialise the device's record to `{p: 0, n: 0}`
when absent, then increment `p` (increment mode) or `n` (decrement mode). -/
def updatePNCounter (pn : PNMap) (deviceId : String) (increment : Bool) : PNMap :=
  fun d =>
    if d = deviceId then
      let cur := (pn deviceId).getD (0, 0)
      some (if increment then (cur.1 + 1, cur.2) else (cur.1, cur.2 + 1))
    else pn d

/-- server.js line 101: `clientReadingsCounter[clientId] || 1` — the weight of
a client, defaulting to `1` when the counter is absent (i.e. `0` here). -/
def weightOf (g : GCounter) (clientId : String) : ℕ :=
  if g clientId = 0 then 1 else g clientId

/-- server.js line 261: `(counter[d]?.p || 0) - (counter[d]?.n || 0)`. -/
def totalFor (pn : PNMap) (deviceId : String) : ℤ :=
  match pn deviceId with
  | none => 0
  | some pr => (pr.1 : ℤ) - (pr.2 : ℤ)

/-- One iteration of the `forEach` loop of `calculateWeightedAverage`
(server.js lines 100-104): `weightedSum += value * weight` (JavaScript `*`
and `+` coerce `null` to `0` and propagate `NaN`, modelled by `Option ℚ` with
`none` as `NaN`) and `totalWeight += weight`. -/
def cwaStep (g : GCounter) (acc : Option ℚ × ℕ) (r : QVal × String) : Option ℚ × ℕ :=
  let w := weightOf g r.2
  (match acc.1, toNumber r.1 with
   | some s, some v => some (s + v * (w : ℚ))
   | _, _ => none,
   acc.2 + w)

/-- server.js lines 96-107: fold the entries, then return
`weightedSum / totalWeight` when `totalWeight > 0`, else `null`. -/
def calculateWeightedAverage (g : GCounter) (readings : List (QVal × String)) : QVal :=
  let res := readings.foldl (cwaStep g) (some 0, 0)
  if 0 < res.2 then
    match res.1 with
    | some s => .num (s / (res.2 : ℚ))
    | none => .nan
  else .null

/-- server.js lines 172-201: the value set stored when the trailing 5-minute
window is non-empty — each field is `calculateWeightedAverage` of the latest
recent reading's field and the incoming field.  The `SensorReading` row has no
`clientId` column (prisma/schema.prisma), so `latestReading.clientId` is
`undefined` and indexing `clientReadingsCounter` with it uses the string key
"undefined"; the counter state is the one already updated for this request
(lines 139-142 run before the merge). -/
def mergeWithLatest (g : GCounter) (latestReading incoming : SensorData)
    (clientId : String) : SensorData :=
  { temperature := calculateWeightedAverage g
      [(latestReading.temperature, "undefined"), (incoming.temperature, clientId)]
    humidity := calculateWeightedAverage g
      [(latestReading.humidity, "undefined"), (incoming.humidity, clientId)]
    pm25 := calculateWeightedAverage g
      [(latestReading.pm25, "undefined"), (incoming.pm25, clientId)]
    pm10 := calculateWeightedAverage g
      [(latestReading.pm10, "undefined"), (incoming.pm10, clientId)]
    co2 := calculateWeightedAverage g
      [(latestReading.co2, "undefined"), (incoming.co2, clientId)]
    tvoc := calculateWeightedAverage g
      [(latestReading.tvoc, "undefined"), (incoming.tvoc, clientId)] }

/-- Prisma stores an `undefined` field of `create`'s data as an unset column,
i.e. SQL NULL for these nullable columns; `null` is stored as NULL and a
number as itself. -/
def storeField : QVal → QVal
  | .undef => .null
  | v => v

/-- server.js lines 204-216: the quantity fields of the row handed to
`prisma.sensorReading.create` — the spread of `resolvedData` followed by the
unconditional `pm25: pm2_5` override of the `pm25` key. -/
def persistedRecord (resolvedData : SensorData) (pm2_5 : QVal) : SensorData :=
  { temperature := storeField resolvedData.temperature
    humidity := storeField resolvedData.humidity
    pm25 := storeField pm2_5
    pm10 := storeField resolvedData.pm10
    co2 := storeField resolvedData.co2
    tvoc := storeField resolvedData.tvoc }

/-- The request body of POST /readings after the destructuring of server.js
line 123, restricted to the known fields (`client_timestamp` only affects a
column no claim mentions and is omitted): `device_id` is absent (`none`) or a
string, and `sensorData` is the rest object with the six quantity keys. -/
structure ReqBody where
  device_id : Option String
  client_id : String
  pm2_5 : QVal
  sensorData : SensorData

/-- The process-local mutable counter state of server.js lines 70-73. -/
structure Counters where
  g : GCounter
  pn : PNMap

/-- One resolved behaviour of the persistence layer for a single POST request:
whether each awaited Prisma call succeeds, and what `findMany` (the trailing
5-minute window, newest first) returns when it does. -/
structure StoreBehavior where
  upsertOk : Bool
  findRecentOk : Bool
  recentReadings : List SensorData
  insertOk : Bool

/-- The observable outcome of POST /readings: the three 400 rejections
(server.js lines 126-136), the 500 of the catch block (lines 229-233), or 201
with the created row's quantity fields. -/
inductive PostResult where
  | missingDevice
  | emptyPayload
  | invalidData
  | storeError
  | created (row : SensorData)
  deriving DecidableEq, Repr

/-- server.js line 129: every value of the rest object is null/undefined
(body restricted to the six quantity keys). -/
def allAbsent (s : SensorData) : Bool :=
  isNullish s.temperature && isNullish s.humidity && isNullish s.pm25 &&
  isNullish s.pm10 && isNullish s.co2 && isNullish s.tvoc

/-- server.js lines 122-234: the POST /readings handler.  Checks run in source
order: missing `device_id` (line 126, JavaScript `!device_id` is true for the
empty string too), empty payload unless `pm2_5` is truthy (line 129), range
validation (line 134); then the two counters are updated (lines 139-142)
before the try block; any Prisma failure lands in the catch (500) with the
counters left as updated; otherwise the merge of lines 169-201 and the create
of lines 204-216 run. -/
def postReadings (body : ReqBody) (st : Counters) (store : StoreBehavior) :
    PostResult × Counters :=
  match body.device_id with
  | none => (.missingDevice, st)
  | some d =>
    if d = "" then (.missingDevice, st)
    else if allAbsent body.sensorData && !truthyQ body.pm2_5 then (.emptyPayload, st)
    else if !validateSensorData body.sensorData then (.invalidData, st)
    else
      let st2 : Counters :=
        { g := updateGCounter st.g body.client_id
          pn := updatePNCounter st.pn d true }
      if !store.upsertOk then (.storeError, st2)
      else if !store.findRecentOk then (.storeError, st2)
      else
        let resolvedData :=
          match store.recentReadings with
          | [] => body.sensorData
          | latestReading :: _ =>
            mergeWithLatest st2.g latestReading body.sensorData body.client_id
        if !store.insertOk then (.storeError, st2)
        else (.created (persistedRecord resolvedData body.pm2_5), st2)

/-- server.js lines 281-286: one field of a middle element — nullish fields
are replaced by `(prev + next) / 2` with JavaScript coercion (`null` becomes
`0`, `undefined` becomes `NaN`). -/
def interpField (cur prev next : QVal) : QVal :=
  if isNullish cur then halfSum prev next else cur

/-- server.js lines 274-288: the body of the `map` callback at index `i` —
first and last elements are returned unchanged, middle elements have each
nullish field filled from the original neighbours `arr[i-1]` and `arr[i+1]`. -/
def interpolateAt (arr : List SensorData) (i : ℕ) : SensorData :=
  if i = 0 ∨ i = arr.length - 1 then arr.getD i default
  else
    let r := arr.getD i default
    let prev := arr.getD (i - 1) default
    let next := arr.getD (i + 1) default
    { temperature := interpField r.temperature prev.temperature next.temperature
      humidity := interpField r.humidity prev.humidity next.humidity
      pm25 := interpField r.pm25 prev.pm25 next.pm25
      pm10 := interpField r.pm10 prev.pm10 next.pm10
      co2 := interpField r.co2 prev.co2 next.co2
      tvoc := interpField r.tvoc prev.tvoc next.tvoc }

/-- server.js lines 274-288: `readings.map((reading, index, arr) => ...)`,
written as a map over the index range. -/
def interpolatedReadings (readings : List SensorData) : List SensorData :=
  (List.range readings.length).map (interpolateAt readings)

/-- The observable outcome of GET /readings/device/:deviceId after the store
query: the simulation payload (server.js lines 262-267, contents random and
not modelled), the 404 (line 270), or the interpolated list (line 298). -/
inductive GetResult where
  | simulated
  | notFound
  | dataRows (rows : List SensorData)
  deriving DecidableEq, Repr

/-- server.js lines 237-304: the retrieval gate and post-processing, given the
rows the store returned for the device (newest first). -/
def getReadings (pn : PNMap) (deviceId : String) (readings : List SensorData) :
    GetResult :=
  if totalFor pn deviceId < 5 then .simulated
  else if readings.length = 0 then .notFound
  else .dataRows (interpolatedReadings readings)

/-- `recordClient` (i.e. `updateGCounter`) applied `n` times for one client. -/
def recordN (g : GCounter) (c : String) : ℕ → GCounter
  | 0 => g
  | n + 1 => updateGCounter (recordN g c n) c

/-- The spec's description of a per-field range check (§4.1): a null/absent
field is always valid, a present numeric field must lie in the closed range. -/
def inClosedRange (v : QVal) (lo hi : ℚ) : Prop :=
  v = .null ∨ v = .undef ∨ ∃ q, v = .num q ∧ lo ≤ q ∧ q ≤ hi

lemma weightOf_pos (g : GCounter) (c : String) : 0 < weightOf g c := by
  unfold weightOf
  split <;> omega

lemma cwa_pair (g : GCounter) (v1 v2 : ℚ) (c1 c2 : String) :
    calculateWeightedAverage g [(.num v1, c1), (.num v2, c2)] =
      .num ((v1 * (weightOf g c1 : ℚ) + v2 * (weightOf g c2 : ℚ)) /
            ((weightOf g c1 : ℚ) + (weightOf g c2 : ℚ))) := by
  have h1 := weightOf_pos g c1
  have h2 := weightOf_pos g c2
  simp only [calculateWeightedAverage, List.foldl, cwaStep, toNumber]
  rw [if_pos (by omega)]
  congr 1
  push_cast
  ring

lemma isValid_iff (v : QVal) (lo hi : ℚ) :
    isValid v lo hi = true ↔ inClosedRange v lo hi := by
  cases v <;> simp [isValid, inClosedRange]

lemma isNullish_isValid (v : QVal) (lo hi : ℚ) (h : isNullish v = true) :
    isValid v lo hi = true := by
  cases v <;> simp_all [isNullish, isValid]

lemma allAbsent_valid (s : SensorData) (h : allAbsent s = true) :
    validateSensorData s = true := by
  simp only [allAbsent, Bool.and_eq_true] at h
  obtain ⟨⟨⟨⟨⟨h1, h2⟩, h3⟩, h4⟩, h5⟩, h6⟩ := h
  simp [validateSensorData, isNullish_isValid _ _ _ h1, isNullish_isValid _ _ _ h2,
    isNullish_isValid _ _ _ h3, isNullish_isValid _ _ _ h4,
    isNullish_isValid _ _ _ h5, isNullish_isValid _ _ _ h6]

lemma recordN_apply (g : GCounter) (c : String) (n : ℕ) :
    recordN g c n c = g c + n := by
  induction n with
  | zero => rfl
  | succ k ih => simp [recordN, updateGCounter, ih]; omega

lemma interpolated_getElem? (arr : List SensorData) (i : ℕ) (h : i < arr.length) :
    (interpolatedReadings arr)[i]? = some (interpolateAt arr i) := by
  simp [interpolatedReadings, List.getElem?_map, List.getElem?_range h]

lemma getD_of_lt (arr : List SensorData) (i : ℕ) (h : i < arr.length) :
    arr[i]? = some (arr.getD i default) := by
  simp [List.getD_eq_getElem?_getD, List.getElem?_eq_getElem h]

/-- C1: the claim says a field present on exactly one side of the merge passes
through unmodified.  In fact the live merge path hands the raw pair to
`calculateWeightedAverage`, whose arithmetic coerces a `null` side to `0`
(halving the present value) and an absent (`undefined`) side to `NaN`; the
pass-through rule only exists in the dead `resolveConflicts` helper, which the
third conjunct evaluates for contrast. -/
theorem C1_merge_not_passthrough :
    (mergeWithLatest gZero ⟨.null, .null, .null, .null, .null, .null⟩
        ⟨.num 22, .undef, .undef, .undef, .undef, .undef⟩ "c").temperature = .num 11 ∧
    (mergeWithLatest gZero ⟨.num 20, .null, .null, .null, .null, .null⟩
        ⟨.undef, .undef, .undef, .undef, .undef, .undef⟩ "c").temperature = .nan ∧
    (resolveConflicts ⟨.null, .null, .null, .null, .null, .null⟩
        ⟨.num 22, .undef, .undef, .undef, .undef, .undef⟩).temperature = .num 22 := by
  refine ⟨?_, ?_, ?_⟩
  · norm_num [mergeWithLatest, calculateWeightedAverage, cwaStep, weightOf, gZero,
      toNumber, List.foldl]
  · decide
  · decide

/-- C2: the claim says that with an empty reconciliation window all six
submitted quantity fields are persisted unchanged.  In fact the `create` call
unconditionally overrides the `pm25` key with the legacy `pm2_5` alias, so a
reading submitted with `pm25 = 12` (and no alias) is persisted with
`pm25 = NULL`; the other five fields do pass through. -/
theorem C2_pm25_alias_overwrites :
    (postReadings
        { device_id := some "d", client_id := "c", pm2_5 := .undef,
          sensorData := ⟨.num 20, .undef, .num 12, .undef, .undef, .undef⟩ }
        { g := gZero, pn := pnZero }
        { upsertOk := true, findRecentOk := true, recentReadings := [],
          insertOk := true }).1
      = .created ⟨.num 20, .null, .null, .null, .null, .null⟩ ∧
    (⟨.num 20, .undef, .num 12, .undef, .undef, .undef⟩ : SensorData).pm25 = .num 12 := by
  constructor
  · decide
  · rfl

/-- C3 counterexample: on the batch with temperatures `[10, null, null, 40]`
the middle element at index 1 has a null next-neighbour, and the claim says
the null neighbour is treated as absent, propagating null into the result and
never acting as the number zero.  In fact the result is `(10 + 0) / 2 = 5`:
a number, with the null neighbour coerced to zero. -/
theorem C3_counterexample :
    ((interpolatedReadings
        [⟨.num 10, .null, .null, .null, .null, .null⟩,
         ⟨.null, .null, .null, .null, .null, .null⟩,
         ⟨.null, .null, .null, .null, .null, .null⟩,
         ⟨.num 40, .null, .null, .null, .null, .null⟩]).getD 1 default).temperature
      = .num 5 ∧ QVal.num 5 ≠ QVal.null := by
  constructor
  · have h := interpolated_getElem?
      [⟨.num 10, .null, .null, .null, .null, .null⟩,
       ⟨.null, .null, .null, .null, .null, .null⟩,
       ⟨.null, .null, .null, .null, .null, .null⟩,
       ⟨.num 40, .null, .null, .null, .null, .null⟩] 1 (by norm_num)
    rw [List.getD_eq_getElem?_getD, h]
    norm_num [interpolateAt, interpField, isNullish, halfSum, toNumber]
  · decide

/-- C3 (amended): when a middle element's field is null and its preceding
neighbour's field is also null while the following neighbour holds `q`, the
null neighbour is coerced to the numeric value `0` by the JavaScript addition,
so the averaged result is `q / 2` — a number, never a propagated null. -/
theorem C3_null_neighbor_as_zero (arr : List SensorData) (i : ℕ) (q : ℚ)
    (h1 : 0 < i) (h2 : i < arr.length - 1)
    (hc : (arr.getD i default).temperature = .null)
    (hp : (arr.getD (i - 1) default).temperature = .null)
    (hn : (arr.getD (i + 1) default).temperature = .num q) :
    ((interpolatedReadings arr).getD i default).temperature = .num (q / 2) := by
  have hi : i < arr.length := by omega
  rw [List.getD_eq_getElem?_getD, interpolated_getElem? arr i hi]
  rw [Option.getD_some]
  rw [interpolateAt, if_neg (by omega)]
  simp only [hc, hp, hn, interpField, isNullish, halfSum, toNumber]
  norm_num

/-- C3 witness: index 2 of the `[10, null, null, 40]` temperature batch has a
null value and a null preceding neighbour; the filled value is `40 / 2 = 20`. -/
theorem C3_witness :
    ((interpolatedReadings
        [⟨.num 10, .null, .null, .null, .null, .null⟩,
         ⟨.null, .null, .null, .null, .null, .null⟩,
         ⟨.null, .null, .null, .null, .null, .null⟩,
         ⟨.num 40, .null, .null, .null, .null, .null⟩]).getD 2 default).temperature
      = .num 20 := by
  have h := C3_null_neighbor_as_zero
    [⟨.num 10, .null, .null, .null, .null, .null⟩,
     ⟨.null, .null, .null, .null, .null, .null⟩,
     ⟨.null, .null, .null, .null, .null, .null⟩,
     ⟨.num 40, .null, .null, .null, .null, .null⟩] 2 40
    (by norm_num) (by norm_num) rfl rfl rfl
  rw [h]
  norm_num

/-- C4: `calculateWeightedAverage` on two present values returns
`(v1 * w1 + v2 * w2) / (w1 + w2)` with each weight taken from the G-counter
(defaulting to 1), and with both weights 1 the result is the arithmetic mean:
latest 20 and incoming 22 give 21. -/
theorem C4_weighted_average (g : GCounter) (v1 v2 : ℚ) (c1 c2 : String) :
    calculateWeightedAverage g [(.num v1, c1), (.num v2, c2)] =
      .num ((v1 * (weightOf g c1 : ℚ) + v2 * (weightOf g c2 : ℚ)) /
            ((weightOf g c1 : ℚ) + (weightOf g c2 : ℚ))) ∧
    (weightOf g c1 = 1 → weightOf g c2 = 1 →
      calculateWeightedAverage g [(.num 20, c1), (.num 22, c2)] = .num 21) := by
  refine ⟨cwa_pair g v1 v2 c1 c2, ?_⟩
  intro e1 e2
  rw [cwa_pair g 20 22 c1 c2, e1, e2]
  norm_num

/-- C4 witness: with the fresh counter state both weights are 1 and the merge
of 20 and 22 is 21. -/
theorem C4_witness :
    weightOf gZero "a" = 1 ∧ weightOf gZero "b" = 1 ∧
    calculateWeightedAverage gZero [(.num 20, "a"), (.num 22, "b")] = .num 21 :=
  ⟨rfl, rfl, (C4_weighted_average gZero 20 22 "a" "b").2 rfl rfl⟩

/-- C5 counterexample: the claim says any supplied `pm2_5` value bypasses the
empty-payload rejection.  Submitting `pm2_5 = 0` with all six quantity fields
absent is still rejected (`!pm2_5` is true for `0`), with the counter state
untouched. -/
theorem C5_counterexample :
    postReadings
        { device_id := some "d", client_id := "c", pm2_5 := .num 0,
          sensorData := ⟨.undef, .undef, .undef, .undef, .undef, .undef⟩ }
        { g := gZero, pn := pnZero }
        { upsertOk := true, findRecentOk := true, recentReadings := [],
          insertOk := true }
      = (.emptyPayload, { g := gZero, pn := pnZero }) := by
  rfl

/-- C5 (amended): a submission whose six quantity fields are all null/absent
is rejected with the empty-payload error — before any counter or store
interaction — exactly when the legacy `pm2_5` alias is falsy (absent, null,
`NaN` or `0`); a truthy (non-zero) `pm2_5` bypasses this rejection. -/
theorem C5_empty_payload_gate (b : ReqBody) (st : Counters) (store : StoreBehavior)
    (d : String) (hd : b.device_id = some d) (hne : d ≠ "")
    (he : allAbsent b.sensorData = true) :
    (truthyQ b.pm2_5 = false → postReadings b st store = (.emptyPayload, st)) ∧
    (truthyQ b.pm2_5 = true → (postReadings b st store).1 ≠ .emptyPayload) := by
  constructor
  · intro h
    simp [postReadings, hd, hne, he, h]
  · intro h
    have hv := allAbsent_valid b.sensorData he
    rcases store with ⟨u, fr, rec, ins⟩
    cases u <;> cases fr <;> cases ins <;> cases rec <;>
      simp [postReadings, hd, hne, he, h, hv]

/-- C5 witness: with every quantity field absent, a falsy alias (`null`) is
rejected as an empty payload, and a truthy alias (`pm2_5 = 7`) is not. -/
theorem C5_witness :
    postReadings
        { device_id := some "d", client_id := "c", pm2_5 := .null,
          sensorData := ⟨.undef, .undef, .undef, .undef, .undef, .undef⟩ }
        { g := gZero, pn := pnZero }
        { upsertOk := true, findRecentOk := true, recentReadings := [],
          insertOk := true }
      = (.emptyPayload, { g := gZero, pn := pnZero }) ∧
    (postReadings
        { device_id := some "d", client_id := "c", pm2_5 := .num 7,
          sensorData := ⟨.undef, .undef, .undef, .undef, .undef, .undef⟩ }
        { g := gZero, pn := pnZero }
        { upsertOk := true, findRecentOk := true, recentReadings := [],
          insertOk := true }).1 ≠ .emptyPayload := by
  constructor
  · exact (C5_empty_payload_gate
      { device_id := some "d", client_id := "c", pm2_5 := .null,
        sensorData := ⟨.undef, .undef, .undef, .undef, .undef, .undef⟩ }
      { g := gZero, pn := pnZero }
      { upsertOk := true, findRecentOk := true, recentReadings := [], insertOk := true }
      "d" rfl (by decide) (by decide)).1 rfl
  · exact (C5_empty_payload_gate
      { device_id := some "d", client_id := "c", pm2_5 := .num 7,
        sensorData := ⟨.undef, .undef, .undef, .undef, .undef, .undef⟩ }
      { g := gZero, pn := pnZero }
      { upsertOk := true, findRecentOk := true, recentReadings := [], insertOk := true }
      "d" rfl (by decide) (by decide)).2 (by decide)

/-- C6 counterexample: the claim says a store failure leaves both counters at
their prior values.  With fresh counters and an `upsert` that throws, the
request is reported as a store failure but the client's G-counter has moved
from 0 to 1 and the device's PN-counter from absent to `(1, 0)`. -/
theorem C6_counterexample :
    (postReadings
        { device_id := some "d", client_id := "c", pm2_5 := .undef,
          sensorData := ⟨.num 20, .undef, .undef, .undef, .undef, .undef⟩ }
        { g := gZero, pn := pnZero }
        { upsertOk := false, findRecentOk := true, recentReadings := [],
          insertOk := true }).1 = .storeError ∧
    (postReadings
        { device_id := some "d", client_id := "c", pm2_5 := .undef,
          sensorData := ⟨.num 20, .undef, .undef, .undef, .undef, .undef⟩ }
        { g := gZero, pn := pnZero }
        { upsertOk := false, findRecentOk := true, recentReadings := [],
          insertOk := true }).2.g "c" = 1 ∧
    gZero "c" = 0 ∧
    (postReadings
        { device_id := some "d", client_id := "c", pm2_5 := .undef,
          sensorData := ⟨.num 20, .undef, .undef, .undef, .undef, .undef⟩ }
        { g := gZero, pn := pnZero }
        { upsertOk := false, findRecentOk := true, recentReadings := [],
          insertOk := true }).2.pn "d" = some (1, 0) ∧
    pnZero "d" = none := by
  refine ⟨by decide, by decide, rfl, by decide, rfl⟩

/-- C6 (amended): when any persistence call fails, the request is reported as
a generic store failure, but the counters are not rolled back: they keep the
increments applied before the try block — the client's G-counter is one above
its prior value and the device's PN-counter `p` component is one above its
prior value. -/
theorem C6_store_failure_counters (b : ReqBody) (st : Counters) (store : StoreBehavior)
    (d : String) (hd : b.device_id = some d) (hne : d ≠ "")
    (hpay : (allAbsent b.sensorData && !truthyQ b.pm2_5) = false)
    (hv : validateSensorData b.sensorData = true)
    (hf : store.upsertOk = false ∨ store.findRecentOk = false ∨ store.insertOk = false) :
    postReadings b st store =
      (.storeError,
       { g := updateGCounter st.g b.client_id, pn := updatePNCounter st.pn d true }) ∧
    (postReadings b st store).2.g b.client_id = st.g b.client_id + 1 ∧
    (postReadings b st store).2.pn d =
      some (((st.pn d).getD (0, 0)).1 + 1, ((st.pn d).getD (0, 0)).2) := by
  have hmain : postReadings b st store =
      (.storeError,
       { g := updateGCounter st.g b.client_id, pn := updatePNCounter st.pn d true }) := by
    rcases store with ⟨u, fr, rec, ins⟩
    rcases hf with hf | hf | hf <;>
      cases u <;> cases fr <;> cases ins <;> cases rec <;>
        simp_all [postReadings, hd, hne, hpay, hv]
  refine ⟨hmain, ?_, ?_⟩
  · rw [hmain]
    simp [updateGCounter]
  · rw [hmain]
    simp [updatePNCounter]

/-- C6 witness: a concrete valid submission against a store whose insert
fails is reported as a store failure with both counters incremented once. -/
theorem C6_witness :
    postReadings
        { device_id := some "d", client_id := "c", pm2_5 := .undef,
          sensorData := ⟨.num 20, .undef, .undef, .undef, .undef, .undef⟩ }
        { g := gZero, pn := pnZero }
        { upsertOk := true, findRecentOk := true, recentReadings := [],
          insertOk := false }
      = (.storeError, { g := updateGCounter gZero "c", pn := updatePNCounter pnZero "d" true }) :=
  (C6_store_failure_counters _ _ _ "d" rfl (by decide) (by decide) (by decide)
    (Or.inr (Or.inr rfl))).1

/-- C7: `validateSensorData` accepts exactly when every present field lies in
its closed range — temperature [-50, 50], humidity [0, 100], pm2.5 [0, 500],
pm10 [0, 500], co2 [0, 5000], tvoc [0, 1000] — with null/absent fields always
valid and any single out-of-range field rejecting the whole set. -/
theorem C7_validator_iff (s : SensorData) :
    validateSensorData s = true ↔
      (inClosedRange s.temperature (-50) 50 ∧ inClosedRange s.humidity 0 100 ∧
       inClosedRange s.pm25 0 500 ∧ inClosedRange s.pm10 0 500 ∧
       inClosedRange s.co2 0 5000 ∧ inClosedRange s.tvoc 0 1000) := by
  simp only [validateSensorData, Bool.and_eq_true, isValid_iff]
  tauto

/-- C7 witness: a set with every present field in range is accepted, and a set
whose only flaw is `temperature = 51` is rejected as a whole. -/
theorem C7_witness :
    validateSensorData ⟨.num 20, .null, .num 12, .undef, .num 600, .num 100⟩ = true ∧
    validateSensorData ⟨.num 51, .null, .num 12, .undef, .num 600, .num 100⟩ = false := by
  constructor
  · exact (C7_validator_iff _).mpr (by norm_num [inClosedRange])
  · have h := C7_validator_iff ⟨.num 51, .null, .num 12, .undef, .num 600, .num 100⟩
    by_contra hc
    simp only [Bool.not_eq_false] at hc
    have h2 := (h.mp hc).1
    rcases h2 with h2 | h2 | ⟨q, hq, _, hle⟩
    · exact QVal.noConfusion h2
    · exact QVal.noConfusion h2
    · injection hq with hq'
      rw [← hq'] at hle
      norm_num at hle

/-- C8: `totalFor` is `p - n` of the device's PN-counter (0 when the device
was never recorded; 2 after 3 increments and 1 decrement), and retrieval
returns the simulation payload exactly when `totalFor` is below 5, no matter
what rows the store returned. -/
theorem C8_reliability_gate (pn : PNMap) (d : String) (rs : List SensorData) :
    (pn d = none → totalFor pn d = 0) ∧
    (∀ p n, pn d = some (p, n) → totalFor pn d = (p : ℤ) - (n : ℤ)) ∧
    (pn d = none →
      totalFor (updatePNCounter (updatePNCounter (updatePNCounter
        (updatePNCounter pn d true) d true) d true) d false) d = 2) ∧
    (getReadings pn d rs = .simulated ↔ totalFor pn d < 5) := by
  refine ⟨?_, ?_, ?_, ?_⟩
  · intro h
    simp [totalFor, h]
  · intro p n h
    simp [totalFor, h]
  · intro h
    simp [totalFor, updatePNCounter, h]
  · by_cases h5 : totalFor pn d < 5
    · simp [getReadings, h5]
    · simp only [getReadings, if_neg h5]
      constructor
      · intro h
        by_cases hl : rs.length = 0 <;> simp [hl] at h
      · intro h
        exact absurd h h5

/-- C8 witness: a device with 3 increments and 1 decrement totals 2, and with
total 0 the gate returns the simulation payload even though the store holds a
real row. -/
theorem C8_witness :
    totalFor pnZero "dev" = 0 ∧
    totalFor (updatePNCounter (updatePNCounter (updatePNCounter
      (updatePNCounter pnZero "dev" true) "dev" true) "dev" true) "dev" false) "dev" = 2 ∧
    getReadings pnZero "dev" [⟨.num 20, .null, .null, .null, .null, .null⟩] = .simulated := by
  refine ⟨(C8_reliability_gate pnZero "dev" []).1 rfl,
    (C8_reliability_gate pnZero "dev" []).2.2.1 rfl, ?_⟩
  apply (C8_reliability_gate pnZero "dev"
    [⟨.num 20, .null, .null, .null, .null, .null⟩]).2.2.2.mpr
  rw [(C8_reliability_gate pnZero "dev" []).1 rfl]
  norm_num

/-- C9: the weight of a client with no recorded counter is 1, and after
exactly N recorded readings (N ≥ 1) the weight is N. -/
theorem C9_weightOf_counts (g : GCounter) (c : String) (N : ℕ) (h0 : g c = 0) :
    weightOf g c = 1 ∧ (1 ≤ N → weightOf (recordN g c N) c = N) := by
  constructor
  · simp [weightOf, h0]
  · intro hN
    rw [weightOf, recordN_apply, h0]
    simp only [Nat.zero_add]
    rw [if_neg (by omega)]

/-- C9 witness: a never-recorded client weighs 1; after 3 `recordClient`
calls the same client weighs 3. -/
theorem C9_witness :
    weightOf gZero "client" = 1 ∧ weightOf (recordN gZero "client" 3) "client" = 3 :=
  ⟨(C9_weightOf_counts gZero "client" 3 rfl).1,
   (C9_weightOf_counts gZero "client" 3 rfl).2 (by norm_num)⟩

/-- C10: on a batch of length at least 2 the interpolator returns the first
and last elements unchanged, and a one-element batch is returned as-is. -/
theorem C10_interpolator_frame (arr : List SensorData) :
    (2 ≤ arr.length →
      (interpolatedReadings arr)[0]? = arr[0]? ∧
      (interpolatedReadings arr)[arr.length - 1]? = arr[arr.length - 1]?) ∧
    (arr.length = 1 → interpolatedReadings arr = arr) := by
  constructor
  · intro h2
    constructor
    · rw [interpolated_getElem? arr 0 (by omega), getD_of_lt arr 0 (by omega)]
      rw [interpolateAt, if_pos (Or.inl rfl)]
    · rw [interpolated_getElem? arr (arr.length - 1) (by omega),
        getD_of_lt arr (arr.length - 1) (by omega)]
      rw [interpolateAt, if_pos (Or.inr rfl)]
  · intro h1
    rcases arr with _ | ⟨a, t⟩
    · simp at h1
    · rcases t with _ | ⟨b, t2⟩
      · simp [interpolatedReadings, List.range_succ, List.range_zero, interpolateAt]
      · simp at h1

/-- C10 witness: a two-element batch with a null field keeps both elements
unchanged, and a singleton batch is returned as-is. -/
theorem C10_witness :
    (interpolatedReadings
      [⟨.null, .null, .null, .null, .null, .null⟩,
       ⟨.num 1, .null, .null, .null, .null, .null⟩])[0]?
      = some ⟨.null, .null, .null, .null, .null, .null⟩ ∧
    interpolatedReadings [⟨.null, .null, .null, .null, .null, .null⟩]
      = [⟨.null, .null, .null, .null, .null, .null⟩] := by
  constructor
  · have h := (C10_interpolator_frame
      [⟨.null, .null, .null, .null, .null, .null⟩,
       ⟨.num 1, .null, .null, .null, .null, .null⟩]).1 (by norm_num)
    rw [h.1]
    decide
  · exact (C10_interpolator_frame
      [⟨.null, .null, .null, .null, .null, .null⟩]).2 rfl

end Airwise
